import Mathlib

/-!
Formal model of the trading-lab simulation core: the backtest engine
(`asx_jobs/backtest/engine.py`), the end-of-day paper-order executor
(`asx_jobs/paper/executor.py`), the risk manager (`asx_jobs/paper/risk.py`)
and the portfolio analyzer (`asx_jobs/paper/metrics.py`).

Conventions of the embedding:
* Python floats are modelled as rationals (`ℚ`); Python ints as `ℤ`/`ℕ`.
* Dict-shaped database records become structures; the relevant database
  tables become association lists keyed by id, with read/upsert helpers
  mirroring the store's semantics.
* Fallible operations return `Except`/`Option`; a raised exception is an
  `Except.error` carrying the message.
* Trading dates are abstracted to naturals (the source uses ISO strings,
  compared and sorted lexicographically, which is order-isomorphic).
-/

/-- Python `int(x)` conversion: truncation toward zero. -/
def pyInt (q : ℚ) : ℤ := if 0 ≤ q then ⌊q⌋ else -⌊-q⌋

/-- Lookup in an association list (model of a keyed table read). -/
def alookup {α β : Type} [DecidableEq α] (k : α) : List (α × β) → Option β
  | [] => none
  | kv :: rest => if kv.1 = k then some kv.2 else alookup k rest

/-- Insert-or-replace in an association list (model of a keyed upsert). -/
def aupdate {α β : Type} [DecidableEq α] (k : α) (v : β) : List (α × β) → List (α × β)
  | [] => [(k, v)]
  | kv :: rest => if kv.1 = k then (k, v) :: rest else kv :: aupdate k v rest

/-- Remove a key from an association list (model of `del d[k]`). -/
def aerase {α β : Type} [DecidableEq α] (k : α) : List (α × β) → List (α × β)
  | [] => []
  | kv :: rest => if kv.1 = k then rest else kv :: aerase k rest

theorem alookup_aupdate_self {α β : Type} [DecidableEq α] (k : α) (v : β) :
    ∀ l : List (α × β), alookup k (aupdate k v l) = some v := by
  intro l
  induction l with
  | nil => simp [aupdate, alookup]
  | cons kv rest ih =>
    by_cases h : kv.1 = k
    · simp [aupdate, alookup, h]
    · simp [aupdate, alookup, h, ih]

/-! ## EOD executor (`paper/executor.py`) -/

/-- One day's price record as consumed by the executor
(`price_map[instrument_id]`): close is mandatory, high/low may be absent. -/
structure PriceData where
  close : ℚ
  high : Option ℚ
  low : Option ℚ
deriving DecidableEq

/-- Effective high used by `_process_order`: Python
`float(price_data["high"]) if price_data.get("high") else close_price`,
where both a missing and a zero (falsy) value fall back to the close. -/
def effHigh (pd : PriceData) : ℚ :=
  match pd.high with
  | some h => if h = 0 then pd.close else h
  | none => pd.close

/-- Effective low used by `_process_order`, with the same falsy fallback. -/
def effLow (pd : PriceData) : ℚ :=
  match pd.low with
  | some l => if l = 0 then pd.close else l
  | none => pd.close

/-- A `paper_positions` row as read/written by the executor. -/
structure PaperPosition where
  quantity : ℤ
  avg_entry_price : ℚ
  current_price : ℚ
  realized_pnl : ℚ
deriving DecidableEq

/-- A `paper_accounts` row (the executor reads/writes `cash_balance` only). -/
structure PaperAccount where
  cash_balance : ℚ
deriving DecidableEq

/-- Fill data written by `fill_paper_order` (status becomes `filled`). -/
structure FilledInfo where
  price : ℚ
  quantity : ℤ
deriving DecidableEq

/-- The slice of database state the executor touches: accounts keyed by id,
positions keyed by (account_id, instrument_id), and the fill records of
orders (an order absent from `fills` still has status `pending`). -/
structure ExecDB where
  accounts : List (ℕ × PaperAccount)
  positions : List ((ℕ × ℕ) × PaperPosition)
  fills : List (ℕ × FilledInfo)
deriving DecidableEq

/-- A pending `paper_orders` row as consumed by `_process_order`.
`symbol` is the joined `instruments.symbol` (absent join ⇒ "UNKNOWN"). -/
structure Order where
  id : ℕ
  account_id : ℕ
  instrument_id : ℕ
  symbol : Option String
  order_side : String
  quantity : ℤ
  order_type : String
  limit_price : Option ℚ

/-- The `FillResult` dataclass of `executor.py`. -/
structure FillResult where
  order_id : ℕ
  instrument_id : ℕ
  symbol : String
  side : String
  quantity : ℤ
  fill_price : ℚ
  total_value : ℚ
  success : Bool
  message : String
deriving DecidableEq

/-- `EODExecutor._check_limit_order` (executor.py lines 298-319). -/
def checkLimitOrder (side : String) (limit_price high low : ℚ) : Bool :=
  if side = "buy" then low ≤ limit_price else high ≥ limit_price

/-- Tail of `EODExecutor._process_order` from the fill-price determination
onward (executor.py lines 176-296): validate the account and cash/position,
then apply the cash, position and order-status updates. -/
def fillAtPrice (order : Order) (close_price fill_price : ℚ) (db : ExecDB) :
    FillResult × ExecDB :=
  let symbol := order.symbol.getD "UNKNOWN"
  let total_value : ℚ := fill_price * order.quantity
  match alookup order.account_id db.accounts with
  | none =>
    (⟨order.id, order.instrument_id, symbol, order.order_side, order.quantity,
      fill_price, total_value, false, "Account not found"⟩, db)
  | some account =>
    let cash_balance := account.cash_balance
    if order.order_side = "buy" then
      if cash_balance < total_value then
        (⟨order.id, order.instrument_id, symbol, order.order_side, order.quantity,
          fill_price, total_value, false, "Insufficient cash"⟩, db)
      else
        let new_cash := cash_balance - total_value
        let db1 : ExecDB :=
          { db with accounts := aupdate order.account_id ⟨new_cash⟩ db.accounts }
        let merged : ℤ × ℚ :=
          match alookup (order.account_id, order.instrument_id) db1.positions with
          | some pos =>
            if pos.quantity > 0 then
              let new_qty := pos.quantity + order.quantity
              (new_qty,
               (pos.avg_entry_price * pos.quantity + fill_price * order.quantity) / new_qty)
            else (order.quantity, fill_price)
          | none => (order.quantity, fill_price)
        let db2 : ExecDB :=
          { db1 with
            positions := aupdate (order.account_id, order.instrument_id)
              ⟨merged.1, merged.2, close_price, 0⟩ db1.positions }
        let db3 : ExecDB :=
          { db2 with fills := aupdate order.id ⟨fill_price, order.quantity⟩ db2.fills }
        (⟨order.id, order.instrument_id, symbol, order.order_side, order.quantity,
          fill_price, total_value, true, "Filled at EOD close"⟩, db3)
    else
      match alookup (order.account_id, order.instrument_id) db.positions with
      | none =>
        (⟨order.id, order.instrument_id, symbol, order.order_side, order.quantity,
          fill_price, total_value, false, "Insufficient position"⟩, db)
      | some position =>
        if position.quantity < order.quantity then
          (⟨order.id, order.instrument_id, symbol, order.order_side, order.quantity,
            fill_price, total_value, false, "Insufficient position"⟩, db)
        else
          let pos_qty := position.quantity
          let pos_avg := position.avg_entry_price
          let pos_realized := position.realized_pnl
          let realized_pnl := (fill_price - pos_avg) * order.quantity
          let new_qty := pos_qty - order.quantity
          let new_cash := cash_balance + total_value
          let db1 : ExecDB :=
            { db with accounts := aupdate order.account_id ⟨new_cash⟩ db.accounts }
          let db2 : ExecDB :=
            if new_qty > 0 then
              { db1 with
                positions := aupdate (order.account_id, order.instrument_id)
                  ⟨new_qty, pos_avg, close_price, pos_realized + realized_pnl⟩ db1.positions }
            else
              { db1 with
                positions := aupdate (order.account_id, order.instrument_id)
                  ⟨0, 0, close_price, pos_realized + realized_pnl⟩ db1.positions }
          let db3 : ExecDB :=
            { db2 with fills := aupdate order.id ⟨fill_price, order.quantity⟩ db2.fills }
          (⟨order.id, order.instrument_id, symbol, order.order_side, order.quantity,
            fill_price, total_value, true, "Filled at EOD close"⟩, db3)

/-- `EODExecutor._process_order` (executor.py lines 115-296): look up the
day's prices, resolve the fill price (close for market orders; the limit
price for limit orders, gated by `_check_limit_order`), then fill. -/
def processOrder (order : Order) (price_map : List (ℕ × PriceData))
    (execution_date : String) (db : ExecDB) : FillResult × ExecDB :=
  let symbol := order.symbol.getD "UNKNOWN"
  match alookup order.instrument_id price_map with
  | none =>
    (⟨order.id, order.instrument_id, symbol, order.order_side, order.quantity,
      0, 0, false, "No price data for " ++ execution_date⟩, db)
  | some price_data =>
    let close_price := price_data.close
    let high_price := effHigh price_data
    let low_price := effLow price_data
    if order.order_type = "limit" then
      match order.limit_price with
      | some limit_price =>
        if ¬ checkLimitOrder order.order_side limit_price high_price low_price then
          (⟨order.id, order.instrument_id, symbol, order.order_side, order.quantity,
            0, 0, false, "Limit price " ++ toString limit_price ++ " not reached"⟩, db)
        else
          fillAtPrice order close_price limit_price db
      | none => fillAtPrice order close_price close_price db
    else fillAtPrice order close_price close_price db

/-! ## Backtest engine (`backtest/engine.py`) -/

/-- The `BacktestConfig` dataclass (universe selection is resolved before
the parts modelled here and is omitted). -/
structure BacktestConfig where
  start_date : ℕ
  end_date : ℕ
  initial_capital : ℚ
  position_size_pct : ℚ
  max_positions : ℕ
  commission_pct : ℚ
  slippage_pct : ℚ
deriving DecidableEq

/-- The `Position` dataclass of `engine.py`. -/
structure Position where
  instrument_id : ℕ
  symbol : String
  quantity : ℤ
  entry_price : ℚ
  entry_date : ℕ
  entry_value : ℚ
deriving DecidableEq

/-- The `Trade` dataclass of `engine.py`. -/
structure Trade where
  instrument_id : ℕ
  symbol : String
  entry_date : ℕ
  entry_price : ℚ
  exit_date : ℕ
  exit_price : ℚ
  quantity : ℤ
  side : String
  pnl : ℚ
  pnl_percent : ℚ
  exit_reason : String
  commission : ℚ
deriving DecidableEq

/-- `BacktestEngine._open_position` (engine.py lines 435-477). -/
def openPosition (instrument_id : ℕ) (symbol : String) (price : ℚ) (date : ℕ)
    (target_value : ℚ) (config : BacktestConfig) : Option Position × ℚ :=
  let slippage := price * config.slippage_pct
  let execution_price := price + slippage
  let quantity : ℤ := pyInt (target_value / execution_price)
  if quantity ≤ 0 then (none, 0)
  else
    let position_value : ℚ := quantity * execution_price
    let commission := position_value * config.commission_pct
    let total_cost := position_value + commission
    (some ⟨instrument_id, symbol, quantity, execution_price, date, total_cost⟩, total_cost)

/-- `BacktestEngine._close_position` (engine.py lines 479-528). -/
def closePosition (position : Position) (price : ℚ) (date : ℕ) (reason : String)
    (config : BacktestConfig) : Trade × ℚ :=
  let slippage := price * config.slippage_pct
  let execution_price := price - slippage
  let gross_proceeds : ℚ := position.quantity * execution_price
  let commission := gross_proceeds * config.commission_pct
  let net_proceeds := gross_proceeds - commission
  let gross_pnl := gross_proceeds - position.quantity * position.entry_price
  let entry_commission := position.entry_value - position.quantity * position.entry_price
  let total_commission := entry_commission + commission
  let net_pnl := gross_pnl - total_commission
  let pnl_percent := if position.entry_value > 0 then net_pnl / position.entry_value else 0
  (⟨position.instrument_id, position.symbol, position.entry_date, position.entry_price,
    date, execution_price, position.quantity, "buy", net_pnl, pnl_percent, reason,
    total_commission⟩, net_proceeds)

/-- Modelled from the spec: `backtest/strategy.py` is not in the source
tree; §6 fixes that a strategy signal is BUY or SELL. -/
inductive SignalType
  | BUY
  | SELL
deriving DecidableEq

/-- Modelled from the spec: the `StrategySignal` record of the strategy
contract, carrying instrument, symbol, signal type, price and an optional
reason. -/
structure StrategySignal where
  instrument_id : ℕ
  symbol : String
  signal_type : SignalType
  price : ℚ
  reason : Option String
deriving DecidableEq

/-- In-memory simulation state of `_execute_backtest`: available cash, the
open-position dict keyed by instrument, and the completed trades. -/
structure SimState where
  cash : ℚ
  positions : List (ℕ × Position)
  trades : List Trade
deriving DecidableEq

/-- One iteration of the signal-application loop of `_execute_backtest`
(engine.py lines 344-376): a SELL closes an open position and credits the
proceeds; a BUY is honored only when no position is open for the
instrument and the position count is below `max_positions`, sized at
`initial_capital × position_size_pct` capped by cash. -/
def applySignal (config : BacktestConfig) (trade_date : ℕ) (st : SimState)
    (signal : StrategySignal) : SimState :=
  let inst_id := signal.instrument_id
  match signal.signal_type with
  | SignalType.SELL =>
    match alookup inst_id st.positions with
    | some pos =>
      let tp := closePosition pos signal.price trade_date
        (signal.reason.getD "strategy_exit") config
      { cash := st.cash + tp.2
        positions := aerase inst_id st.positions
        trades := st.trades ++ [tp.1] }
    | none => st
  | SignalType.BUY =>
    if alookup inst_id st.positions = none ∧ st.positions.length < config.max_positions then
      let position_value := config.initial_capital * config.position_size_pct
      let position_value := min position_value st.cash
      if position_value > 0 then
        match openPosition inst_id signal.symbol signal.price trade_date
            position_value config with
        | (some position, cost) =>
          { cash := st.cash - cost
            positions := aupdate inst_id position st.positions
            trades := st.trades }
        | (none, _) => st
      else st
    else st

/-- The whole per-day signal loop: signals are consumed left to right in
the order the day's instrument scan emitted them (engine.py line 344). -/
def applySignals (config : BacktestConfig) (trade_date : ℕ) (st : SimState)
    (signals : List StrategySignal) : SimState :=
  signals.foldl (applySignal config trade_date) st

/-- Policy worded by the spec (§4.2 step 3), embedded for comparison with
`applySignals`: apply all of the day's sell signals first, then the buys. -/
def applySellsThenBuys (config : BacktestConfig) (trade_date : ℕ) (st : SimState)
    (signals : List StrategySignal) : SimState :=
  let sells := signals.filter (fun s => decide (s.signal_type = SignalType.SELL))
  let buys := signals.filter (fun s => decide (s.signal_type = SignalType.BUY))
  applySignals config trade_date (applySignals config trade_date st sells) buys

/-- A daily OHLCV bar as used by the engine (only the trade date and close
are read by the engine itself). -/
structure Bar where
  trade_date : ℕ
  close : ℚ
deriving DecidableEq

/-- Position info handed to the strategy (engine.py lines 326-336). -/
structure PositionInfo where
  quantity : ℤ
  entry_price : ℚ
  entry_date : ℕ
  unrealized_pnl : ℚ
deriving DecidableEq

/-- Modelled from the spec: the Strategy contract of §6, reduced to its
pure per-bar decision function (`on_start`/`on_end` return nothing the
engine consumes). -/
structure Strategy where
  onBar : ℕ → String → Bar → List Bar → Option PositionInfo → Option StrategySignal

/-- The trading calendar of `_execute_backtest` (engine.py lines 288-292):
the union of the dates present in any instrument's bar series, sorted. -/
def tradingDaysOf (prices_by_instrument : List (ℕ × List Bar)) : List ℕ :=
  (((prices_by_instrument.map (fun ip => ip.2.map (·.trade_date))).flatten).dedup).mergeSort
    (fun a b => Nat.ble a b)

/-- The signal-collection pass of `_execute_backtest` for one trading day
(engine.py lines 308-342): poll the strategy once per instrument that has
a bar on the date, with the bar, the history strictly before it, and the
current position info. -/
def signalsForDay (strategy : Strategy) (instrument_ids : List ℕ)
    (symbol_map : List (ℕ × String)) (prices_by_instrument : List (ℕ × List Bar))
    (positions : List (ℕ × Position)) (trade_date : ℕ) : List StrategySignal :=
  instrument_ids.filterMap (fun inst_id =>
    match alookup inst_id prices_by_instrument with
    | none => none
    | some prices =>
      match prices.findIdx? (fun p => p.trade_date == trade_date) with
      | none => none
      | some bar_idx =>
        match prices.get? bar_idx with
        | none => none
        | some bar =>
          let history := prices.take bar_idx
          let position_info : Option PositionInfo :=
            match alookup inst_id positions with
            | some pos =>
              some ⟨pos.quantity, pos.entry_price, pos.entry_date,
                (bar.close - pos.entry_price) * pos.quantity⟩
            | none => none
          strategy.onBar inst_id ((alookup inst_id symbol_map).getD "") bar history
            position_info)

/-- Mark-to-market valuation after the day's signals (engine.py lines
378-389): cash plus each open position at that day's close when a bar
exists. -/
def markToMarket (prices_by_instrument : List (ℕ × List Bar)) (trade_date : ℕ)
    (st : SimState) : ℚ :=
  st.positions.foldl (fun acc ip =>
    match alookup ip.1 prices_by_instrument with
    | some prices =>
      match prices.find? (fun p => p.trade_date == trade_date) with
      | some bar => acc + bar.close * ip.2.quantity
      | none => acc
    | none => acc) st.cash

/-- Loop state of the day-by-day replay. -/
structure DayState where
  sim : SimState
  equity_curve : List (ℕ × ℚ)
  days_with_positions : ℕ
deriving DecidableEq

/-- One trading day of `_execute_backtest` (engine.py lines 307-392). -/
def dayStep (strategy : Strategy) (config : BacktestConfig)
    (instrument_ids : List ℕ) (symbol_map : List (ℕ × String))
    (prices_by_instrument : List (ℕ × List Bar)) (ds : DayState)
    (trade_date : ℕ) : DayState :=
  let signals := signalsForDay strategy instrument_ids symbol_map
    prices_by_instrument ds.sim.positions trade_date
  let sim := applySignals config trade_date ds.sim signals
  let portfolio_value := markToMarket prices_by_instrument trade_date sim
  { sim := sim
    equity_curve := ds.equity_curve ++ [(trade_date, portfolio_value)]
    days_with_positions :=
      ds.days_with_positions + (if sim.positions ≠ [] then 1 else 0) }

/-- Forced close of all remaining positions at the last available close on
or before `end_date` (engine.py lines 394-410). -/
def forceClose (config : BacktestConfig)
    (prices_by_instrument : List (ℕ × List Bar)) (st : SimState) : SimState :=
  st.positions.foldl (fun acc ip =>
    match alookup ip.1 prices_by_instrument with
    | some prices =>
      match prices.reverse.find? (fun p => Nat.ble p.trade_date config.end_date) with
      | some last_bar =>
        let tp := closePosition ip.2 last_bar.close config.end_date "backtest_end" config
        { acc with cash := acc.cash + tp.2, trades := acc.trades ++ [tp.1] }
      | none => acc
    | none => acc) st

/-- Result payload of `_execute_backtest`. The derived performance metrics
(engine.py lines 530-646) are not modelled: no statement below refers to
them. -/
structure BacktestResultCore where
  run_id : ℕ
  final_capital : ℚ
  trades : List Trade
  equity_curve : List (ℕ × ℚ)
deriving DecidableEq

/-- `BacktestEngine._execute_backtest` (engine.py lines 250-433): build the
trading calendar, fail hard when it is empty, otherwise replay every day
and force-close at the end. -/
def executeBacktest (strategy : Strategy) (instruments : List (ℕ × String))
    (prices_by_instrument : List (ℕ × List Bar)) (config : BacktestConfig)
    (run_id : ℕ) : Except String BacktestResultCore :=
  let instrument_ids := instruments.map (·.1)
  let trading_days := tradingDaysOf prices_by_instrument
  if trading_days = [] then
    Except.error "No trading days found in the specified date range"
  else
    let st0 : DayState := ⟨⟨config.initial_capital, [], []⟩, [], 0⟩
    let final := trading_days.foldl
      (dayStep strategy config instrument_ids instruments prices_by_instrument) st0
    let closed := forceClose config prices_by_instrument final.sim
    Except.ok ⟨run_id, closed.cash, closed.trades, final.equity_curve⟩

/-- What `run` records about the run when completing it. -/
structure RunRecord where
  final_capital : ℚ
  status : String
  error_message : Option String
deriving DecidableEq

/-- The `try/except` wrapper of `BacktestEngine.run` (engine.py lines
218-248): a successful body completes the run with its final capital; a
raised error completes it with status "failed", `initial_capital` as the
recorded final capital and the triggering message, then propagates. -/
def runWrap (initial_capital : ℚ) (body : Except String BacktestResultCore) :
    Except String BacktestResultCore × RunRecord :=
  match body with
  | Except.ok result => (Except.ok result, ⟨result.final_capital, "completed", none⟩)
  | Except.error e => (Except.error e, ⟨initial_capital, "failed", some e⟩)

/-- `BacktestEngine.run` composed with `_execute_backtest`. -/
def runBacktest (strategy : Strategy) (instruments : List (ℕ × String))
    (prices_by_instrument : List (ℕ × List Bar)) (config : BacktestConfig)
    (run_id : ℕ) : Except String BacktestResultCore × RunRecord :=
  runWrap config.initial_capital
    (executeBacktest strategy instruments prices_by_instrument config run_id)


/-! ## Risk manager (`paper/risk.py`) -/

/-- The `RiskLimits` dataclass. -/
structure RiskLimits where
  max_total_exposure : ℚ
  max_position_concentration : ℚ
  max_drawdown_pct : ℚ
  max_losing_streak : ℕ
  min_cash_reserve : ℚ
deriving DecidableEq

/-- The `RiskViolation` dataclass (its human-readable `message` is
presentation-only and not modelled). -/
structure RiskViolation where
  rule : String
  severity : String
  current_value : ℚ
  limit_value : ℚ
deriving DecidableEq

/-- The `PositionRisk` dataclass. -/
structure PositionRisk where
  instrument_id : ℕ
  symbol : String
  quantity : ℤ
  market_value : ℚ
  concentration_pct : ℚ
  unrealized_pnl : ℚ
  unrealized_pnl_pct : ℚ
deriving DecidableEq

/-- The `RiskMetrics` dataclass. -/
structure RiskMetrics where
  account_id : ℕ
  account_name : String
  total_value : ℚ
  cash_balance : ℚ
  positions_value : ℚ
  total_exposure : ℚ
  cash_reserve_pct : ℚ
  current_drawdown : ℚ
  current_drawdown_pct : ℚ
  peak_value : ℚ
  losing_streak : ℕ
  position_risks : List PositionRisk
  violations : List RiskViolation
  is_compliant : Bool
deriving DecidableEq

/-- A `paper_positions` row as read by the risk manager and the portfolio
analyzer (with the joined instrument symbol). -/
structure PosRow where
  instrument_id : ℕ
  symbol : Option String
  quantity : ℤ
  avg_entry_price : ℚ
  current_price : Option ℚ
deriving DecidableEq

/-- Python `float(pos.get("current_price") or pos["avg_entry_price"])`:
a missing or zero (falsy) current price falls back to the entry price. -/
def effCurrentPrice (pos : PosRow) : ℚ :=
  match pos.current_price with
  | some v => if v = 0 then pos.avg_entry_price else v
  | none => pos.avg_entry_price

/-- `RiskManager._calculate_positions_value` (risk.py lines 172-179). -/
def calculatePositionsValue (positions : List PosRow) : ℚ :=
  positions.foldl (fun total pos => total + pos.quantity * effCurrentPrice pos) 0

/-- Return value of `RiskManager._calculate_drawdown`. -/
structure DrawdownInfo where
  drawdown : ℚ
  drawdown_pct : ℚ
  peak_value : ℚ
deriving DecidableEq

/-- `RiskManager._calculate_drawdown` (risk.py lines 181-208); the
snapshot list carries each snapshot's `total_value`. -/
def calculateDrawdown (snapshots : List ℚ) (current_value initial_value : ℚ) :
    DrawdownInfo :=
  match snapshots with
  | [] => ⟨0, 0, max current_value initial_value⟩
  | _ =>
    let peak0 := snapshots.foldl (fun pk v => if v > pk then v else pk) initial_value
    let peak_value := if current_value > peak0 then current_value else peak0
    let drawdown := peak_value - current_value
    let drawdown_pct := if peak_value > 0 then drawdown / peak_value else 0
    ⟨drawdown, drawdown_pct, peak_value⟩

/-- A filled `paper_orders` row as read back (newest first, the order
`get_paper_orders` returns them in). -/
structure OrderRow where
  instrument_id : ℕ
  order_side : String
  filled_avg_price : Option ℚ
  quantity : ℤ
deriving DecidableEq

/-- Python dict comprehension over positions keyed by instrument id:
later rows overwrite earlier ones. -/
def posIndex (positions : List PosRow) : List (ℕ × PosRow) :=
  positions.foldl (fun m p => aupdate p.instrument_id p m) []

/-- Loop body of `RiskManager._calculate_losing_streak` (risk.py lines
221-237): walk the filled sells newest-first, counting consecutive losses,
stopping at the first matched non-loss; unmatched sells are skipped. -/
def losingStreakLoop (position_map : List (ℕ × PosRow)) : List OrderRow → ℕ
  | [] => 0
  | o :: rest =>
    match alookup o.instrument_id position_map with
    | some pos =>
      let fill_price := o.filled_avg_price.getD 0
      let pnl := (fill_price - pos.avg_entry_price) * o.quantity
      if pnl < 0 then 1 + losingStreakLoop position_map rest else 0
    | none => losingStreakLoop position_map rest

/-- `RiskManager._calculate_losing_streak` (risk.py lines 210-237). -/
def calculateLosingStreak (orders : List OrderRow) (positions : List PosRow) : ℕ :=
  let sell_orders := orders.filter (fun o => decide (o.order_side = "sell"))
  match sell_orders with
  | [] => 0
  | _ => losingStreakLoop (posIndex positions) sell_orders

/-- `RiskManager._calculate_position_risks` (risk.py lines 239-272),
sorted by concentration descending (stable, as Python's sort is). -/
def calculatePositionRisks (positions : List PosRow) (total_value : ℚ) :
    List PositionRisk :=
  let risks := positions.map (fun pos =>
    let current_price := effCurrentPrice pos
    let market_value : ℚ := pos.quantity * current_price
    let concentration := if total_value > 0 then market_value / total_value else 0
    let unrealized_pnl := (current_price - pos.avg_entry_price) * pos.quantity
    let unrealized_pnl_pct :=
      if pos.avg_entry_price > 0 then
        (current_price - pos.avg_entry_price) / pos.avg_entry_price
      else 0
    (⟨pos.instrument_id, pos.symbol.getD "N/A", pos.quantity, market_value,
      concentration, unrealized_pnl, unrealized_pnl_pct⟩ : PositionRisk))
  risks.mergeSort (fun a b => decide (b.concentration_pct ≤ a.concentration_pct))

/-- `RiskManager._check_violations` (risk.py lines 274-334): each rule is
tested on its own and contributes its own violations; the concentration
rule contributes one violation per offending position. -/
def checkViolations (limits : RiskLimits) (metrics : RiskMetrics) :
    List RiskViolation :=
  (if metrics.total_exposure > limits.max_total_exposure then
    [⟨"max_total_exposure", "warning", metrics.total_exposure,
      limits.max_total_exposure⟩] else [])
  ++ (if metrics.cash_reserve_pct < limits.min_cash_reserve then
    [⟨"min_cash_reserve", "warning", metrics.cash_reserve_pct,
      limits.min_cash_reserve⟩] else [])
  ++ (if metrics.current_drawdown_pct > limits.max_drawdown_pct then
    [⟨"max_drawdown", "critical", metrics.current_drawdown_pct,
      limits.max_drawdown_pct⟩] else [])
  ++ (if metrics.losing_streak ≥ limits.max_losing_streak then
    [⟨"max_losing_streak", "warning", (metrics.losing_streak : ℚ),
      (limits.max_losing_streak : ℚ)⟩] else [])
  ++ metrics.position_risks.filterMap (fun pos_risk =>
      if pos_risk.concentration_pct > limits.max_position_concentration then
        some ⟨"max_position_concentration", "warning", pos_risk.concentration_pct,
          limits.max_position_concentration⟩
      else none)

/-- A `paper_accounts` row as read by the risk manager and analyzer. -/
structure AccountRow where
  name : String
  cash_balance : ℚ
  initial_balance : ℚ
deriving DecidableEq

/-- `RiskManager.compute_risk_metrics` (risk.py lines 116-170), with the
database reads passed in: `positions` are the account's open positions,
`snapshots` the snapshot total values, `orders` its filled orders (newest
first) and `closed_positions` the positions including closed ones (used by
the losing-streak scan). -/
def computeRiskMetrics (limits : RiskLimits) (account_id : ℕ)
    (account : AccountRow) (positions : List PosRow) (snapshots : List ℚ)
    (orders : List OrderRow) (closed_positions : List PosRow) : RiskMetrics :=
  let cash_balance := account.cash_balance
  let positions_value := calculatePositionsValue positions
  let total_value := cash_balance + positions_value
  let total_exposure := if total_value > 0 then positions_value / total_value else 0
  let cash_reserve_pct := if total_value > 0 then cash_balance / total_value else 1
  let drawdown_info := calculateDrawdown snapshots total_value account.initial_balance
  let losing_streak := calculateLosingStreak orders closed_positions
  let position_risks := calculatePositionRisks positions total_value
  let metrics0 : RiskMetrics :=
    ⟨account_id, account.name, total_value, cash_balance, positions_value,
     total_exposure, cash_reserve_pct, drawdown_info.drawdown,
     drawdown_info.drawdown_pct, drawdown_info.peak_value, losing_streak,
     position_risks, [], true⟩
  let violations := checkViolations limits metrics0
  { metrics0 with
    violations := violations
    is_compliant := decide (violations.length = 0) }

/-! ## Portfolio analyzer trade statistics (`paper/metrics.py`) -/

/-- Return value of `PortfolioAnalyzer._calculate_trade_stats`. A
`profit_factor` of `none` models the source's `float("inf")` branch. -/
structure TradeStats where
  total_trades : ℕ
  winning_trades : ℕ
  losing_trades : ℕ
  win_rate : ℚ
  avg_win : ℚ
  avg_loss : ℚ
  profit_factor : Option ℚ
deriving DecidableEq

/-- Loop body of `_calculate_trade_stats` (metrics.py lines 270-283): a
matched sell with strictly positive reconstructed P&L joins the wins, a
strictly negative one joins the losses (as its absolute value), and any
other sell contributes to neither list. -/
def tradeStatsStep (position_map : List (ℕ × PosRow)) (wl : List ℚ × List ℚ)
    (order : OrderRow) : List ℚ × List ℚ :=
  match alookup order.instrument_id position_map with
  | some pos =>
    let fill_price := order.filled_avg_price.getD 0
    let pnl := (fill_price - pos.avg_entry_price) * order.quantity
    if pnl > 0 then (wl.1 ++ [pnl], wl.2)
    else if pnl < 0 then (wl.1, wl.2 ++ [|pnl|])
    else wl
  | none => wl

/-- `PortfolioAnalyzer._calculate_trade_stats` (metrics.py lines 240-305). -/
def calculateTradeStats (orders : List OrderRow) (positions : List PosRow) :
    TradeStats :=
  let sell_orders := orders.filter (fun o => decide (o.order_side = "sell"))
  match sell_orders with
  | [] => ⟨0, 0, 0, 0, 0, 0, some 0⟩
  | _ =>
    let position_map := posIndex positions
    let wl := sell_orders.foldl (tradeStatsStep position_map) ([], [])
    let wins := wl.1
    let losses := wl.2
    let total_trades := wins.length + losses.length
    let winning_trades := wins.length
    let losing_trades := losses.length
    let win_rate :=
      if total_trades > 0 then (winning_trades : ℚ) / total_trades else 0
    let avg_win := if wins ≠ [] then wins.sum / wins.length else 0
    let avg_loss := if losses ≠ [] then losses.sum / losses.length else 0
    let total_wins := wins.sum
    let total_losses := losses.sum
    let profit_factor :=
      if total_losses > 0 then some (total_wins / total_losses)
      else if total_wins > 0 then none else some 0
    ⟨total_trades, winning_trades, losing_trades, win_rate, avg_win, avg_loss,
     profit_factor⟩

/-! ## General facts about the executor -/

theorem fillAtPrice_fst_fill_price (order : Order) (cp fp : ℚ) (db : ExecDB) :
    (fillAtPrice order cp fp db).1.fill_price = fp := by
  simp only [fillAtPrice]
  split
  · rfl
  · split
    · split
      · rfl
      · rfl
    · split
      · rfl
      · split
        · rfl
        · rfl

theorem fillAtPrice_reject_state (order : Order) (cp fp : ℚ) (db : ExecDB)
    (h : (fillAtPrice order cp fp db).1.success = false) :
    (fillAtPrice order cp fp db).2 = db := by
  revert h
  simp only [fillAtPrice]
  split
  · intro _; rfl
  · split
    · split
      · intro _; rfl
      · intro h; simp at h
    · split
      · intro _; rfl
      · split
        · intro _; rfl
        · intro h; simp at h

theorem fillAtPrice_order_type_irrelevant (oid acc inst : ℕ) (sym : Option String)
    (side : String) (qty : ℤ) (t1 t2 : String) (lp1 lp2 : Option ℚ)
    (cp fp : ℚ) (db : ExecDB) :
    fillAtPrice ⟨oid, acc, inst, sym, side, qty, t1, lp1⟩ cp fp db =
      fillAtPrice ⟨oid, acc, inst, sym, side, qty, t2, lp2⟩ cp fp db := rfl

/-! ## Claim C8 -/

/-- C8: whenever the EOD executor rejects an order — missing price data,
unreached limit, account not found, insufficient cash on a buy, or
insufficient position on a sell — the account balances, all positions and
all order fill statuses are left exactly as they were: `_process_order`
mutates the store only after every validation for the order has passed. -/
theorem processOrder_rejection_preserves_state (order : Order)
    (pm : List (ℕ × PriceData)) (d : String) (db : ExecDB)
    (h : (processOrder order pm d db).1.success = false) :
    (processOrder order pm d db).2 = db := by
  revert h
  simp only [processOrder]
  split
  · intro _; rfl
  · split
    · split
      · split
        · intro _; rfl
        · exact fillAtPrice_reject_state _ _ _ _
      · exact fillAtPrice_reject_state _ _ _ _
    · exact fillAtPrice_reject_state _ _ _ _

/-- Witness for C8: a concrete order rejected for missing price data
leaves the concrete database state untouched. -/
theorem processOrder_rejection_preserves_state_witness :
    (processOrder ⟨1, 7, 3, some "ABC", "buy", 5, "market", none⟩ []
        "2024-01-02" ⟨[(7, ⟨10000⟩)], [], []⟩).1.success = false ∧
    (processOrder ⟨1, 7, 3, some "ABC", "buy", 5, "market", none⟩ []
        "2024-01-02" ⟨[(7, ⟨10000⟩)], [], []⟩).2 = ⟨[(7, ⟨10000⟩)], [], []⟩ :=
  ⟨by norm_num [processOrder, alookup],
   processOrder_rejection_preserves_state _ _ _ _ (by norm_num [processOrder, alookup])⟩

/-! ## Claim C4 -/

/-- C4: for a pending limit order on a date with a price bar, the limit
gate is exactly `low ≤ limit` for a buy and `high ≥ limit` for a sell;
when the gate fails the order is rejected with the "not reached" message
and the state is returned unchanged (the order stays pending), and when it
passes the order proceeds to fill at exactly the limit price. -/
theorem processOrder_limit_gate (order : Order) (pm : List (ℕ × PriceData))
    (d : String) (db : ExecDB) (l : ℚ) (pd : PriceData)
    (htype : order.order_type = "limit") (hl : order.limit_price = some l)
    (hpd : alookup order.instrument_id pm = some pd) :
    (order.order_side = "buy" →
      (checkLimitOrder order.order_side l (effHigh pd) (effLow pd) = true ↔
        effLow pd ≤ l)) ∧
    (order.order_side ≠ "buy" →
      (checkLimitOrder order.order_side l (effHigh pd) (effLow pd) = true ↔
        l ≤ effHigh pd)) ∧
    (checkLimitOrder order.order_side l (effHigh pd) (effLow pd) = false →
      processOrder order pm d db =
        (⟨order.id, order.instrument_id, order.symbol.getD "UNKNOWN", order.order_side,
          order.quantity, 0, 0, false,
          "Limit price " ++ toString l ++ " not reached"⟩, db)) ∧
    (checkLimitOrder order.order_side l (effHigh pd) (effLow pd) = true →
      processOrder order pm d db = fillAtPrice order pd.close l db ∧
      (processOrder order pm d db).1.fill_price = l) := by
  refine ⟨?_, ?_, ?_, ?_⟩
  · intro hside
    simp [checkLimitOrder, hside]
  · intro hside
    simp [checkLimitOrder, hside, ge_iff_le]
  · intro hcheck
    simp [processOrder, hpd, htype, hl, hcheck]
  · intro hcheck
    constructor
    · simp [processOrder, hpd, htype, hl, hcheck]
    · simp [processOrder, hpd, htype, hl, hcheck, fillAtPrice_fst_fill_price]

/-- Witness for C4: a buy limit order at 10.00 on a day with low 10.50 is
rejected with the "not reached" message and no state change. -/
theorem processOrder_limit_gate_witness :
    processOrder ⟨1, 7, 3, some "ABC", "buy", 5, "limit", some 10⟩
        [(3, ⟨11, some 12, some (21/2)⟩)] "2024-01-02" ⟨[(7, ⟨10000⟩)], [], []⟩ =
      (⟨1, 3, "ABC", "buy", 5, 0, 0, false,
        "Limit price " ++ toString (10 : ℚ) ++ " not reached"⟩,
       ⟨[(7, ⟨10000⟩)], [], []⟩) :=
  (processOrder_limit_gate _ _ _ _ 10 ⟨11, some 12, some (21/2)⟩ rfl rfl
      (by norm_num [alookup])).2.2.1
    (by norm_num [checkLimitOrder, effHigh, effLow])

/-! ## Claim C5 -/

/-- C5: a filled buy merges into an existing positive-quantity position by
weighted-average cost — the new quantity is `q1 + q2` and the new average
entry price `(q1·p1 + q2·p2)/(q1 + q2)` — while with no prior position (or
a non-positive one) the position becomes `q2` at price `p2`. -/
theorem fillAtPrice_buy_weighted_average (order : Order) (cp fp : ℚ) (db : ExecDB)
    (acct : PaperAccount)
    (hside : order.order_side = "buy")
    (hacct : alookup order.account_id db.accounts = some acct)
    (hcash : ¬ acct.cash_balance < fp * order.quantity) :
    (∀ pos : PaperPosition,
      alookup (order.account_id, order.instrument_id) db.positions = some pos →
      0 < pos.quantity →
      alookup (order.account_id, order.instrument_id)
          (fillAtPrice order cp fp db).2.positions =
        some ⟨pos.quantity + order.quantity,
          (pos.avg_entry_price * pos.quantity + fp * order.quantity) /
            ((pos.quantity + order.quantity : ℤ) : ℚ), cp, 0⟩) ∧
    (∀ pos : PaperPosition,
      alookup (order.account_id, order.instrument_id) db.positions = some pos →
      ¬ 0 < pos.quantity →
      alookup (order.account_id, order.instrument_id)
          (fillAtPrice order cp fp db).2.positions =
        some ⟨order.quantity, fp, cp, 0⟩) ∧
    (alookup (order.account_id, order.instrument_id) db.positions = none →
      alookup (order.account_id, order.instrument_id)
          (fillAtPrice order cp fp db).2.positions =
        some ⟨order.quantity, fp, cp, 0⟩) := by
  refine ⟨?_, ?_, ?_⟩
  · intro pos hpos hq
    simp [fillAtPrice, hacct, hside, hcash, hpos, hq, alookup_aupdate_self]
  · intro pos hpos hq
    simp [fillAtPrice, hacct, hside, hcash, hpos, hq, alookup_aupdate_self]
  · intro hpos
    simp [fillAtPrice, hacct, hside, hcash, hpos, alookup_aupdate_self]

/-- Witness for C5: buying 50 shares at 12 into a 100-share position with
average entry 10 yields 150 shares at average entry 32/3. -/
theorem fillAtPrice_buy_weighted_average_witness :
    alookup ((7 : ℕ), (3 : ℕ))
        (fillAtPrice ⟨1, 7, 3, some "ABC", "buy", 50, "market", none⟩ 11 12
          ⟨[(7, ⟨10000⟩)], [((7, 3), ⟨100, 10, 9, 0⟩)], []⟩).2.positions =
      some ⟨150, 32/3, 11, 0⟩ := by
  have h := (fillAtPrice_buy_weighted_average
      ⟨1, 7, 3, some "ABC", "buy", 50, "market", none⟩ 11 12
      ⟨[(7, ⟨10000⟩)], [((7, 3), ⟨100, 10, 9, 0⟩)], []⟩ ⟨10000⟩ rfl
      (by norm_num [alookup]) (by norm_num)).1 ⟨100, 10, 9, 0⟩
      (by norm_num [alookup]) (by norm_num)
  rw [h]
  norm_num

/-! ## Claim C10 -/

/-- C10: a pending order typed "limit" but carrying no limit price is not
rejected — `_process_order` treats it exactly like a market order, fills
it at the day's close, and never consults the limit-reachability check. -/
theorem processOrder_null_limit_as_market (order : Order)
    (pm : List (ℕ × PriceData)) (d : String) (db : ExecDB)
    (h : order.limit_price = none) :
    processOrder order pm d db =
      processOrder { order with order_type := "market" } pm d db ∧
    (∀ pd, alookup order.instrument_id pm = some pd →
      (processOrder order pm d db).1.fill_price = pd.close) := by
  obtain ⟨oid, acc, inst, sym, side, qty, otype, lp⟩ := order
  simp only [Order.mk.injEq] at h ⊢
  subst h
  constructor
  · simp only [processOrder]
    cases halookup : alookup inst pm with
    | none => rfl
    | some pd =>
      by_cases ht : otype = "limit" <;> simp only [ht, if_true, if_false] <;>
        exact fillAtPrice_order_type_irrelevant oid acc inst sym side qty
          "limit" "market" none none pd.close pd.close db
  · intro pd hpd
    simp only [processOrder, hpd]
    by_cases ht : otype = "limit" <;>
      simp [ht, fillAtPrice_fst_fill_price]

/-- Witness for C10: a concrete limit-typed order with a null limit price
behaves as its market twin and fills at the close of 11, not at a limit. -/
theorem processOrder_null_limit_as_market_witness :
    processOrder ⟨1, 7, 3, some "ABC", "buy", 5, "limit", none⟩
        [(3, ⟨11, some 12, some (21/2)⟩)] "2024-01-02" ⟨[(7, ⟨10000⟩)], [], []⟩ =
      processOrder ⟨1, 7, 3, some "ABC", "buy", 5, "market", none⟩
        [(3, ⟨11, some 12, some (21/2)⟩)] "2024-01-02" ⟨[(7, ⟨10000⟩)], [], []⟩ ∧
    (processOrder ⟨1, 7, 3, some "ABC", "buy", 5, "limit", none⟩
        [(3, ⟨11, some 12, some (21/2)⟩)] "2024-01-02"
        ⟨[(7, ⟨10000⟩)], [], []⟩).1.fill_price = 11 := by
  have h := processOrder_null_limit_as_market
    ⟨1, 7, 3, some "ABC", "buy", 5, "limit", none⟩
    [(3, ⟨11, some 12, some (21/2)⟩)] "2024-01-02" ⟨[(7, ⟨10000⟩)], [], []⟩ rfl
  exact ⟨h.1, h.2 ⟨11, some 12, some (21/2)⟩ (by norm_num [alookup])⟩

/-! ## Arithmetic facts about the backtest fill pricing -/

theorem pyInt_intCast (n : ℤ) : pyInt (n : ℚ) = n := by
  unfold pyInt
  split
  · exact Int.floor_intCast n
  · rw [← Int.cast_neg, Int.floor_intCast]
    ring

theorem openPosition_zero_friction (inst : ℕ) (sym : String) (p : ℚ) (d : ℕ)
    (q : ℤ) (cfg : BacktestConfig) (hs : cfg.slippage_pct = 0)
    (hc : cfg.commission_pct = 0) (hp : p ≠ 0) (hq : 0 < q) :
    (openPosition inst sym p d (p * q) cfg).2 = p * q := by
  have h1 : p * (q : ℚ) / (p + p * 0) = (q : ℚ) := by field_simp
  have h2 : pyInt (p * (q : ℚ) / (p + p * 0)) = q := by rw [h1, pyInt_intCast]
  simp only [openPosition, hs, hc, h2]
  rw [if_neg (by omega : ¬ q ≤ 0)]
  push_cast
  ring

theorem closePosition_zero_friction (pos : Position) (p : ℚ) (d : ℕ) (r : String)
    (cfg : BacktestConfig) (hs : cfg.slippage_pct = 0) (hc : cfg.commission_pct = 0) :
    (closePosition pos p d r cfg).2 = p * pos.quantity := by
  simp only [closePosition, hs, hc]
  ring

theorem fillAtPrice_success_cash (order : Order) (cp fp : ℚ) (db : ExecDB)
    (acct : PaperAccount)
    (hacct : alookup order.account_id db.accounts = some acct)
    (hs : (fillAtPrice order cp fp db).1.success = true) :
    (order.order_side = "buy" →
      alookup order.account_id (fillAtPrice order cp fp db).2.accounts =
        some ⟨acct.cash_balance - fp * order.quantity⟩) ∧
    (order.order_side ≠ "buy" →
      alookup order.account_id (fillAtPrice order cp fp db).2.accounts =
        some ⟨acct.cash_balance + fp * order.quantity⟩) := by
  revert hs
  simp only [fillAtPrice, hacct]
  split
  · split
    · intro h; simp at h
    · intro _
      constructor
      · intro _
        simp [alookup_aupdate_self]
      · intro hne
        exact absurd (by assumption) hne
  · split
    · intro h; simp at h
    · split
      · intro h; simp at h
      · intro _
        constructor
        · intro hside
          exact absurd hside (by assumption)
        · intro _
          split <;> simp [alookup_aupdate_self]

theorem processOrder_success_eq_fill (order : Order) (pm : List (ℕ × PriceData))
    (d : String) (db : ExecDB)
    (hs : (processOrder order pm d db).1.success = true) :
    ∃ pd fp, alookup order.instrument_id pm = some pd ∧
      processOrder order pm d db = fillAtPrice order pd.close fp db := by
  revert hs
  simp only [processOrder]
  split
  · intro h; simp at h
  · split
    · split
      · split
        · intro h; simp at h
        · intro _
          exact ⟨_, _, (by assumption), rfl⟩
      · intro _
        exact ⟨_, _, (by assumption), rfl⟩
    · intro _
      exact ⟨_, _, (by assumption), rfl⟩

/-! ## Claim C1 -/

/-- C1 counterexample: the EOD executor fills a market buy of 10 shares at
close 100 and debits cash by exactly 1000 (from 10000 to 9000), applying
no slippage and no commission; the backtest's `_open_position` for the
same quoted price 100, quantity 10, slippage rate 1/1000 and commission
rate 1/1000 opens the position at execution price 100.1 and charges
1002001/1000 = 1002.001 — so the executor's cash effect per fill is not
the backtest's fill pricing for the same inputs and rates. -/
theorem executor_pricing_differs_from_backtest :
    (processOrder ⟨1, 7, 3, some "ABC", "buy", 10, "market", none⟩
        [(3, ⟨100, none, none⟩)] "2024-01-02"
        ⟨[(7, ⟨10000⟩)], [], []⟩).1.success = true ∧
    alookup 7 (processOrder ⟨1, 7, 3, some "ABC", "buy", 10, "market", none⟩
        [(3, ⟨100, none, none⟩)] "2024-01-02"
        ⟨[(7, ⟨10000⟩)], [], []⟩).2.accounts = some ⟨9000⟩ ∧
    (openPosition 3 "ABC" 100 0 1001
        ⟨0, 1, 100000, 1/10, 10, 1/1000, 1/1000⟩).1 =
      some ⟨3, "ABC", 10, 1001/10, 0, 1002001/1000⟩ ∧
    (openPosition 3 "ABC" 100 0 1001
        ⟨0, 1, 100000, 1/10, 10, 1/1000, 1/1000⟩).2 = 1002001/1000 ∧
    (10000 : ℚ) - 9000 ≠ 1002001/1000 := by
  refine ⟨?_, ?_, ?_, ?_, by norm_num⟩
  · norm_num [processOrder, fillAtPrice, alookup]
  · norm_num [processOrder, fillAtPrice, alookup, aupdate]
  · norm_num [openPosition, pyInt]
  · norm_num [openPosition, pyInt]

/-- C1 (amended): the EOD executor applies neither slippage nor
commission — a filled buy debits cash by exactly quantity × fill_price
and a filled sell credits exactly quantity × fill_price, which coincides
with the backtest's `_open_position` cost / `_close_position` proceeds
for the same price and quantity only when both the slippage rate and the
commission rate are zero. -/
theorem processOrder_fill_cash_effect (order : Order) (pm : List (ℕ × PriceData))
    (d : String) (db : ExecDB) (acct : PaperAccount)
    (hacct : alookup order.account_id db.accounts = some acct)
    (hs : (processOrder order pm d db).1.success = true)
    (hq : 0 < order.quantity)
    (hp : (processOrder order pm d db).1.fill_price ≠ 0)
    (cfg : BacktestConfig) (hcs : cfg.slippage_pct = 0) (hcc : cfg.commission_pct = 0) :
    (order.order_side = "buy" →
      alookup order.account_id (processOrder order pm d db).2.accounts =
        some ⟨acct.cash_balance -
          (processOrder order pm d db).1.fill_price * order.quantity⟩ ∧
      (openPosition order.instrument_id (order.symbol.getD "UNKNOWN")
          ((processOrder order pm d db).1.fill_price) 0
          ((processOrder order pm d db).1.fill_price * order.quantity) cfg).2 =
        (processOrder order pm d db).1.fill_price * order.quantity) ∧
    (order.order_side ≠ "buy" →
      alookup order.account_id (processOrder order pm d db).2.accounts =
        some ⟨acct.cash_balance +
          (processOrder order pm d db).1.fill_price * order.quantity⟩ ∧
      ∀ (sym : String) (ep : ℚ) (ed : ℕ) (ev : ℚ) (r : String) (d2 : ℕ),
        (closePosition ⟨order.instrument_id, sym, order.quantity, ep, ed, ev⟩
            ((processOrder order pm d db).1.fill_price) d2 r cfg).2 =
          (processOrder order pm d db).1.fill_price * order.quantity) := by
  obtain ⟨pd, fp, hpd, hpe⟩ := processOrder_success_eq_fill order pm d db hs
  rw [hpe] at hs hp ⊢
  rw [fillAtPrice_fst_fill_price] at hp ⊢
  have hcash := fillAtPrice_success_cash order pd.close fp db acct hacct hs
  constructor
  · intro hside
    refine ⟨hcash.1 hside, ?_⟩
    exact openPosition_zero_friction _ _ fp 0 order.quantity cfg hcs hcc hp hq
  · intro hside
    refine ⟨hcash.2 hside, ?_⟩
    intro sym ep ed ev r d2
    rw [closePosition_zero_friction _ _ _ _ cfg hcs hcc]

/-- Witness for the amended C1: the concrete filled buy of 10 shares at
close 100 debits cash from 10000 to 9000, and the zero-friction backtest
cost for the same price and quantity is the same 1000. -/
theorem processOrder_fill_cash_effect_witness :
    alookup 7 (processOrder ⟨1, 7, 3, some "ABC", "buy", 10, "market", none⟩
        [(3, ⟨100, none, none⟩)] "2024-01-02"
        ⟨[(7, ⟨10000⟩)], [], []⟩).2.accounts = some ⟨9000⟩ ∧
    (openPosition 3 "ABC" 100 0 (100 * ((10 : ℤ) : ℚ))
        ⟨0, 1, 100000, 1/10, 10, 0, 0⟩).2 = 100 * ((10 : ℤ) : ℚ) := by
  have h := (processOrder_fill_cash_effect
      ⟨1, 7, 3, some "ABC", "buy", 10, "market", none⟩
      [(3, ⟨100, none, none⟩)] "2024-01-02" ⟨[(7, ⟨10000⟩)], [], []⟩ ⟨10000⟩
      (by norm_num [alookup]) (by norm_num [processOrder, fillAtPrice, alookup])
      (by norm_num)
      (by norm_num [processOrder, fillAtPrice, alookup])
      ⟨0, 1, 100000, 1/10, 10, 0, 0⟩ rfl rfl).1 rfl
  have hfp : (processOrder ⟨1, 7, 3, some "ABC", "buy", 10, "market", none⟩
      [(3, ⟨100, none, none⟩)] "2024-01-02"
      ⟨[(7, ⟨10000⟩)], [], []⟩).1.fill_price = 100 := by
    norm_num [processOrder, fillAtPrice, alookup]
  rw [hfp] at h
  refine ⟨?_, h.2⟩
  rw [h.1]
  norm_num

/-! ## Claim C3 -/

/-- C3: for every trade `_close_position` produces — any position, any
exit price — the trade's commission is the entry-side commission
(entry_value minus quantity times entry price) plus the exit-side
commission, and its pnl is the net sell proceeds minus the entry value;
for a position opened by `_open_position` that reconstructed entry-side
commission is exactly the commission the open charged (and entry_value
is the open's cost); consequently a buy-then-sell round trip at the same
quoted price `p` nets exactly `-2·q·p·(slippage + commission)` —
strictly negative whenever slippage or commission is positive, and
exactly zero when both are zero. -/
theorem closePosition_round_trip (inst : ℕ) (sym : String) (p : ℚ) (d1 d2 : ℕ)
    (target : ℚ) (r : String) (cfg : BacktestConfig) (pos : Position) (cost : ℚ)
    (hp : 0 < p) (hs : 0 ≤ cfg.slippage_pct) (hc : 0 ≤ cfg.commission_pct)
    (hopen : openPosition inst sym p d1 target cfg = (some pos, cost)) :
    (∀ (pos2 : Position) (p2 : ℚ) (d3 : ℕ) (r2 : String),
      (closePosition pos2 p2 d3 r2 cfg).1.commission =
        (pos2.entry_value - pos2.quantity * pos2.entry_price) +
          (pos2.quantity * (p2 - p2 * cfg.slippage_pct)) * cfg.commission_pct ∧
      (closePosition pos2 p2 d3 r2 cfg).1.pnl =
        (closePosition pos2 p2 d3 r2 cfg).2 - pos2.entry_value) ∧
    pos.entry_value - pos.quantity * pos.entry_price =
      (pos.quantity * (p + p * cfg.slippage_pct)) * cfg.commission_pct ∧
    pos.entry_value = cost ∧
    (closePosition pos p d2 r cfg).1.commission =
      (cost - pos.quantity * pos.entry_price) +
        (pos.quantity * (p - p * cfg.slippage_pct)) * cfg.commission_pct ∧
    (closePosition pos p d2 r cfg).1.pnl =
      (closePosition pos p d2 r cfg).2 - pos.entry_value ∧
    (closePosition pos p d2 r cfg).1.pnl =
      -2 * pos.quantity * p * (cfg.slippage_pct + cfg.commission_pct) ∧
    (0 < cfg.slippage_pct ∨ 0 < cfg.commission_pct →
      (closePosition pos p d2 r cfg).1.pnl < 0) ∧
    (cfg.slippage_pct = 0 ∧ cfg.commission_pct = 0 →
      (closePosition pos p d2 r cfg).1.pnl = 0) := by
  simp only [openPosition] at hopen
  set q : ℤ := pyInt (target / (p + p * cfg.slippage_pct)) with hqdef
  by_cases hq : q ≤ 0
  · rw [if_pos hq] at hopen
    simp at hopen
  · rw [if_neg hq] at hopen
    simp only [Prod.mk.injEq, Option.some.injEq] at hopen
    obtain ⟨hpos, hcost⟩ := hopen
    subst hpos
    subst hcost
    have hq1 : (1 : ℚ) ≤ (q : ℚ) := by exact_mod_cast (by omega : (1 : ℤ) ≤ q)
    refine ⟨?_, ?_, ?_, ?_, ?_, ?_, ?_, ?_⟩
    · intro pos2 p2 d3 r2
      constructor
      · simp only [closePosition]
        try ring
      · simp only [closePosition]
        try ring
    · simp only []
      try ring
    · rfl
    · simp only [closePosition]
      try ring
    · simp only [closePosition]
      try ring
    · simp only [closePosition]
      try ring
    · intro hpos
      have hsum : 0 < cfg.slippage_pct + cfg.commission_pct := by
        rcases hpos with h | h
        · linarith
        · linarith
      have hqp : 0 < (q : ℚ) * p := by positivity
      have : 0 < 2 * ((q : ℚ) * p) * (cfg.slippage_pct + cfg.commission_pct) := by
        positivity
      simp only [closePosition]
      nlinarith [this]
    · intro ⟨h1, h2⟩
      simp only [closePosition, h1, h2]
      ring

/-- Witness for C3: a concrete round trip at quoted price 10 with 1%
slippage and zero commission opens 99 shares and closes at a strictly
negative pnl, and a close of the same position at the different exit
price 12 satisfies the pnl = net proceeds − entry value identity. -/
theorem closePosition_round_trip_witness :
    (0 : ℚ) < 10 ∧
    openPosition 5 "XYZ" 10 0 1000 ⟨0, 1, 100000, 1/10, 10, 0, 1/100⟩ =
      (some ⟨5, "XYZ", 99, 101/10, 0, 9999/10⟩, 9999/10) ∧
    (closePosition ⟨5, "XYZ", 99, 101/10, 0, 9999/10⟩ 12 2 "y"
        ⟨0, 1, 100000, 1/10, 10, 0, 1/100⟩).1.pnl =
      (closePosition ⟨5, "XYZ", 99, 101/10, 0, 9999/10⟩ 12 2 "y"
        ⟨0, 1, 100000, 1/10, 10, 0, 1/100⟩).2 - 9999/10 ∧
    (closePosition ⟨5, "XYZ", 99, 101/10, 0, 9999/10⟩ 10 1 "x"
        ⟨0, 1, 100000, 1/10, 10, 0, 1/100⟩).1.pnl < 0 := by
  have hopen : openPosition 5 "XYZ" 10 0 1000 ⟨0, 1, 100000, 1/10, 10, 0, 1/100⟩ =
      (some ⟨5, "XYZ", 99, 101/10, 0, 9999/10⟩, 9999/10) := by
    norm_num [openPosition, pyInt]
  have h := closePosition_round_trip 5 "XYZ" 10 0 1 1000 "x"
    ⟨0, 1, 100000, 1/10, 10, 0, 1/100⟩ ⟨5, "XYZ", 99, 101/10, 0, 9999/10⟩
    (9999/10) (by norm_num) (by norm_num) (by norm_num) hopen
  exact ⟨by norm_num, hopen,
    (h.1 ⟨5, "XYZ", 99, 101/10, 0, 9999/10⟩ 12 2 "y").2,
    h.2.2.2.2.2.2.1 (Or.inl (by norm_num))⟩

/-! ## Claim C2 -/

/-- C2 counterexample: with max_positions = 1, one open position in
instrument 1, and the day's signals emitted as [buy instrument 2, sell
instrument 1], `_execute_backtest`'s signal loop processes the buy first
against state that does not yet reflect the sell: the buy is refused for
lack of a free slot and the day ends with no open position, whereas the
sells-before-buys policy stated by the spec would open instrument 2 —
so sell signals are not applied before buy signals regardless of
emission order. -/
theorem signals_not_sells_first :
    (applySignals ⟨0, 10, 100000, 1/10, 1, 0, 0⟩ 1
        ⟨500, [(1, ⟨1, "AAA", 100, 10, 0, 1000⟩)], []⟩
        [⟨2, "BBB", SignalType.BUY, 10, none⟩,
         ⟨1, "AAA", SignalType.SELL, 10, none⟩]).positions = [] ∧
    (applySellsThenBuys ⟨0, 10, 100000, 1/10, 1, 0, 0⟩ 1
        ⟨500, [(1, ⟨1, "AAA", 100, 10, 0, 1000⟩)], []⟩
        [⟨2, "BBB", SignalType.BUY, 10, none⟩,
         ⟨1, "AAA", SignalType.SELL, 10, none⟩]).positions ≠ [] ∧
    applySignals ⟨0, 10, 100000, 1/10, 1, 0, 0⟩ 1
        ⟨500, [(1, ⟨1, "AAA", 100, 10, 0, 1000⟩)], []⟩
        [⟨2, "BBB", SignalType.BUY, 10, none⟩,
         ⟨1, "AAA", SignalType.SELL, 10, none⟩] ≠
      applySellsThenBuys ⟨0, 10, 100000, 1/10, 1, 0, 0⟩ 1
        ⟨500, [(1, ⟨1, "AAA", 100, 10, 0, 1000⟩)], []⟩
        [⟨2, "BBB", SignalType.BUY, 10, none⟩,
         ⟨1, "AAA", SignalType.SELL, 10, none⟩] := by
  have h1 : (applySignals ⟨0, 10, 100000, 1/10, 1, 0, 0⟩ 1
      ⟨500, [(1, ⟨1, "AAA", 100, 10, 0, 1000⟩)], []⟩
      [⟨2, "BBB", SignalType.BUY, 10, none⟩,
       ⟨1, "AAA", SignalType.SELL, 10, none⟩]).positions = [] := by
    norm_num [applySignals, applySignal, alookup, aupdate, aerase,
      openPosition, closePosition, pyInt, List.foldl]
  have h2 : (applySellsThenBuys ⟨0, 10, 100000, 1/10, 1, 0, 0⟩ 1
      ⟨500, [(1, ⟨1, "AAA", 100, 10, 0, 1000⟩)], []⟩
      [⟨2, "BBB", SignalType.BUY, 10, none⟩,
       ⟨1, "AAA", SignalType.SELL, 10, none⟩]).positions ≠ [] := by
    norm_num [applySellsThenBuys, applySignals, applySignal, alookup, aupdate,
      aerase, openPosition, closePosition, pyInt, List.foldl, List.filter]
  exact ⟨h1, h2, fun h => h2 (h ▸ h1)⟩

/-- C2 (amended): the engine applies the day's signals in one pass in
emission order, so the state seen by each buy reflects exactly the
signals emitted before it; the sells-before-buys outcome is guaranteed
precisely when the emitted list already places every sell before every
buy, in which case the single pass coincides with the spec's policy. -/
theorem applySignals_emission_order (cfg : BacktestConfig) (d : ℕ) (st : SimState)
    (sigs : List StrategySignal)
    (h : sigs = sigs.filter (fun s => decide (s.signal_type = SignalType.SELL)) ++
         sigs.filter (fun s => decide (s.signal_type = SignalType.BUY))) :
    applySignals cfg d st sigs = applySellsThenBuys cfg d st sigs := by
  unfold applySellsThenBuys applySignals
  conv_lhs => rw [h]
  rw [List.foldl_append]

/-- Witness for the amended C2: a concrete day whose signals are emitted
sells-first coincides with the sells-then-buys policy. -/
theorem applySignals_emission_order_witness :
    applySignals ⟨0, 10, 100000, 1/10, 1, 0, 0⟩ 1
        ⟨500, [(1, ⟨1, "AAA", 100, 10, 0, 1000⟩)], []⟩
        [⟨1, "AAA", SignalType.SELL, 10, none⟩,
         ⟨2, "BBB", SignalType.BUY, 10, none⟩] =
      applySellsThenBuys ⟨0, 10, 100000, 1/10, 1, 0, 0⟩ 1
        ⟨500, [(1, ⟨1, "AAA", 100, 10, 0, 1000⟩)], []⟩
        [⟨1, "AAA", SignalType.SELL, 10, none⟩,
         ⟨2, "BBB", SignalType.BUY, 10, none⟩] :=
  applySignals_emission_order _ _ _ _ (by simp [List.filter])

/-! ## Claim C6 -/

theorem length_filterMap_ite {α β : Type} (P : α → Prop) [DecidablePred P]
    (g : α → β) (l : List α) :
    (l.filterMap (fun x => if P x then some (g x) else none)).length =
      (l.filter (fun x => decide (P x))).length := by
  induction l with
  | nil => rfl
  | cons a t ih => by_cases h : P a <;> simp [List.filterMap_cons, h, ih]

/-- C6 counterexample: an account with cash 100,000 and a single
position worth 30,000 has cash_reserve_pct = 100000/130000 = 10/13 ≈ 0.77,
which is not below the min_cash_reserve limit of 0.5 — with all other
limits unbreached, `compute_risk_metrics` reports no violation at all and
the account is compliant, not exactly one `min_cash_reserve` violation. -/
theorem risk_scenario_produces_no_violation :
    (computeRiskMetrics ⟨95/100, 1/4, 1/5, 5, 1/2⟩ 9 ⟨"test", 100000, 100000⟩
        [⟨1, some "AAA", 300, 10, some 100⟩] [] [] []).cash_reserve_pct = 10/13 ∧
    (computeRiskMetrics ⟨95/100, 1/4, 1/5, 5, 1/2⟩ 9 ⟨"test", 100000, 100000⟩
        [⟨1, some "AAA", 300, 10, some 100⟩] [] [] []).violations = [] ∧
    (computeRiskMetrics ⟨95/100, 1/4, 1/5, 5, 1/2⟩ 9 ⟨"test", 100000, 100000⟩
        [⟨1, some "AAA", 300, 10, some 100⟩] [] [] []).is_compliant = true := by
  refine ⟨?_, ?_, ?_⟩ <;>
    norm_num [computeRiskMetrics, checkViolations, calculatePositionsValue,
      calculateDrawdown, calculateLosingStreak, calculatePositionRisks,
      effCurrentPrice, posIndex, List.foldl, List.filterMap, List.mergeSort,
      List.filter]

/-- C6 (amended): for an account with cash 100,000 and a single position
with market value 300,000 (so the cash reserve is 1/4 of total value),
evaluated under min_cash_reserve = 0.5 with the other limits unbreached,
`compute_risk_metrics` produces exactly one violation, whose rule is
`min_cash_reserve`, and `is_compliant` is false; moreover every rule in
`_check_violations` is evaluated independently — the violation count is
the sum of one independent indicator per rule plus one per offending
position concentration. -/
theorem min_cash_reserve_single_violation :
    (computeRiskMetrics ⟨95/100, 4/5, 1/5, 5, 1/2⟩ 9 ⟨"test", 100000, 100000⟩
        [⟨1, some "AAA", 3000, 10, some 100⟩] [] [] []).violations =
      [⟨"min_cash_reserve", "warning", 1/4, 1/2⟩] ∧
    (computeRiskMetrics ⟨95/100, 4/5, 1/5, 5, 1/2⟩ 9 ⟨"test", 100000, 100000⟩
        [⟨1, some "AAA", 3000, 10, some 100⟩] [] [] []).is_compliant = false ∧
    (∀ (limits : RiskLimits) (m : RiskMetrics),
      (checkViolations limits m).length =
        (if m.total_exposure > limits.max_total_exposure then 1 else 0) +
        (if m.cash_reserve_pct < limits.min_cash_reserve then 1 else 0) +
        (if m.current_drawdown_pct > limits.max_drawdown_pct then 1 else 0) +
        (if m.losing_streak ≥ limits.max_losing_streak then 1 else 0) +
        (m.position_risks.filter
          (fun pr => decide (pr.concentration_pct >
            limits.max_position_concentration))).length) := by
  refine ⟨?_, ?_, ?_⟩
  · norm_num [computeRiskMetrics, checkViolations, calculatePositionsValue,
      calculateDrawdown, calculateLosingStreak, calculatePositionRisks,
      effCurrentPrice, posIndex, List.foldl, List.filterMap, List.mergeSort,
      List.filter]
  · norm_num [computeRiskMetrics, checkViolations, calculatePositionsValue,
      calculateDrawdown, calculateLosingStreak, calculatePositionRisks,
      effCurrentPrice, posIndex, List.foldl, List.filterMap, List.mergeSort,
      List.filter]
  · intro limits m
    simp only [checkViolations, List.length_append, length_filterMap_ite]
    split_ifs <;> simp

/-! ## Claim C7 -/

/-- Reconstructed P&L of a filled sell against the position map, as the
analyzer computes it: none when no position matches. -/
def reconPnl (pm : List (ℕ × PosRow)) (o : OrderRow) : Option ℚ :=
  match alookup o.instrument_id pm with
  | some pos => some ((o.filled_avg_price.getD 0 - pos.avg_entry_price) * o.quantity)
  | none => none

/-- A matched sell with strictly positive reconstructed P&L. -/
def reconWin (pm : List (ℕ × PosRow)) (o : OrderRow) : Bool :=
  match reconPnl pm o with
  | some p => decide (p > 0)
  | none => false

/-- A matched sell with strictly negative reconstructed P&L. -/
def reconLose (pm : List (ℕ × PosRow)) (o : OrderRow) : Bool :=
  match reconPnl pm o with
  | some p => decide (p < 0)
  | none => false

theorem tradeStatsStep_foldl (pm : List (ℕ × PosRow)) (l : List OrderRow)
    (w0 l0 : List ℚ) :
    (l.foldl (tradeStatsStep pm) (w0, l0)).1.length =
      w0.length + (l.filter (reconWin pm)).length ∧
    (l.foldl (tradeStatsStep pm) (w0, l0)).2.length =
      l0.length + (l.filter (reconLose pm)).length := by
  induction l generalizing w0 l0 with
  | nil => simp
  | cons o t ih =>
    simp only [List.foldl_cons, List.filter_cons]
    cases h : alookup o.instrument_id pm with
    | none =>
      simp only [tradeStatsStep, h, reconWin, reconLose, reconPnl]
      simpa using ih w0 l0
    | some pos =>
      by_cases hw : (o.filled_avg_price.getD 0 - pos.avg_entry_price) * o.quantity > 0
      · have h1 := ih (w0 ++ [(o.filled_avg_price.getD 0 - pos.avg_entry_price) * o.quantity]) l0
        simp only [List.length_append, List.length_singleton] at h1
        constructor
        · simp [tradeStatsStep, h, reconWin, reconLose, reconPnl, hw, h1.1]
          omega
        · simp [tradeStatsStep, h, reconWin, reconLose, reconPnl, hw,
            not_lt_of_gt hw, h1.2]
      · by_cases hl : (o.filled_avg_price.getD 0 - pos.avg_entry_price) * o.quantity < 0
        · have h1 := ih w0 (l0 ++ [|(o.filled_avg_price.getD 0 - pos.avg_entry_price) * o.quantity|])
          simp only [List.length_append, List.length_singleton] at h1
          constructor
          · simp [tradeStatsStep, h, reconWin, reconLose, reconPnl, hw, hl, h1.1]
          · simp [tradeStatsStep, h, reconWin, reconLose, reconPnl, hw, hl, h1.2]
            omega
        · have h1 := ih w0 l0
          constructor
          · simp [tradeStatsStep, h, reconWin, reconLose, reconPnl, hw, hl, h1.1]
          · simp [tradeStatsStep, h, reconWin, reconLose, reconPnl, hw, hl, h1.2]

/-- C7 (amended): the analyzer's trade statistics classify a matched sell
as a win only when its reconstructed P&L is strictly positive and as a
loss only when it is strictly negative; a matched sell with zero P&L is
excluded from both counts (it is neither a win nor a loss), and
total_trades = winning_trades + losing_trades counts only the strictly
classified sells, not all matched sells. -/
theorem tradeStats_strict_classification (orders : List OrderRow)
    (positions : List PosRow) :
    (calculateTradeStats orders positions).winning_trades =
      ((orders.filter (fun o => decide (o.order_side = "sell"))).filter
        (reconWin (posIndex positions))).length ∧
    (calculateTradeStats orders positions).losing_trades =
      ((orders.filter (fun o => decide (o.order_side = "sell"))).filter
        (reconLose (posIndex positions))).length ∧
    (calculateTradeStats orders positions).total_trades =
      (calculateTradeStats orders positions).winning_trades +
        (calculateTradeStats orders positions).losing_trades := by
  cases hsell : orders.filter (fun o => decide (o.order_side = "sell")) with
  | nil => simp [calculateTradeStats, hsell]
  | cons a t =>
    have hfold := tradeStatsStep_foldl (posIndex positions) (a :: t) [] []
    simp only [List.length_nil, Nat.zero_add] at hfold
    simp only [calculateTradeStats, hsell]
    exact ⟨hfold.1, hfold.2, trivial⟩

/-- C7 counterexample: a filled sell at exactly the position's average
entry price (reconstructed P&L = 0) is dropped from the statistics
entirely — losing_trades stays 0, not 1 — contradicting the claim that
zero-P&L sells are counted as losses. -/
theorem zero_pnl_sell_excluded :
    calculateTradeStats [⟨1, "sell", some 10, 5⟩] [⟨1, some "AAA", 0, 10, some 10⟩] =
      ⟨0, 0, 0, 0, 0, 0, some 0⟩ ∧
    reconPnl (posIndex [⟨1, some "AAA", 0, 10, some 10⟩]) ⟨1, "sell", some 10, 5⟩ =
      some 0 ∧
    (calculateTradeStats [⟨1, "sell", some 10, 5⟩]
        [⟨1, some "AAA", 0, 10, some 10⟩]).losing_trades ≠ 1 := by
  refine ⟨?_, ?_, ?_⟩
  · norm_num [calculateTradeStats, tradeStatsStep, posIndex, alookup, aupdate,
      List.filter, List.foldl]
  · norm_num [reconPnl, posIndex, alookup, aupdate, List.foldl]
  · norm_num [calculateTradeStats, tradeStatsStep, posIndex, alookup, aupdate,
      List.filter, List.foldl]

/-! ## Claim C9 -/

/-- C9: a backtest whose trading calendar (the union of dates present in
any instrument's bar series) is empty fails hard with the "No trading
days" error, which `run` surfaces to the caller while recording the run
as failed with `initial_capital` as its final capital and the triggering
message; more generally, any error raised by the simulation body is
recorded that way and propagated. -/
theorem backtest_failure_semantics (strategy : Strategy)
    (instruments : List (ℕ × String)) (prices : List (ℕ × List Bar))
    (config : BacktestConfig) (run_id : ℕ) :
    (tradingDaysOf prices = [] →
      executeBacktest strategy instruments prices config run_id =
        Except.error "No trading days found in the specified date range" ∧
      runBacktest strategy instruments prices config run_id =
        (Except.error "No trading days found in the specified date range",
         ⟨config.initial_capital, "failed",
          some "No trading days found in the specified date range"⟩)) ∧
    (∀ e : String, runWrap config.initial_capital (Except.error e) =
      (Except.error e, ⟨config.initial_capital, "failed", some e⟩)) := by
  constructor
  · intro h
    have he : executeBacktest strategy instruments prices config run_id =
        Except.error "No trading days found in the specified date range" := by
      simp [executeBacktest, h]
    exact ⟨he, by simp [runBacktest, he, runWrap]⟩
  · intro e
    rfl

/-- Witness for C9: the concrete empty price set yields the hard failure,
recorded with status "failed" and the initial capital of 100000. -/
theorem backtest_failure_semantics_witness :
    tradingDaysOf ([] : List (ℕ × List Bar)) = [] ∧
    runBacktest ⟨fun _ _ _ _ _ => none⟩ [] [] ⟨0, 1, 100000, 1/10, 10, 0, 0⟩ 1 =
      (Except.error "No trading days found in the specified date range",
       ⟨100000, "failed",
        some "No trading days found in the specified date range"⟩) := by
  have h : tradingDaysOf ([] : List (ℕ × List Bar)) = [] := by
    simp [tradingDaysOf]
  exact ⟨h, ((backtest_failure_semantics ⟨fun _ _ _ _ _ => none⟩ [] []
    ⟨0, 1, 100000, 1/10, 10, 0, 0⟩ 1).1 h).2⟩
